import Mathlib

/-!
Shallow embedding of the Supabase "send SMS hook" edge function
(`src/index.ts`), a webhook handler that routes one-time-passcode
delivery between SMS and WhatsApp via the Authentica.sa API.

JavaScript strings are modelled as Lean `String`; environment variables
that may be unset are modelled as `String` where `""` plays the role of
"unset or empty" (exactly the falsy strings of JavaScript).  External
effects (the outbound `fetch` call, the signature check of the
`standardwebhooks` library, `JSON.parse` of the provider response) are
modelled as explicit parameters; whether the outbound provider call is
performed on a given control path is reflected in an explicit
`Option OutboundRequest` component of the result.
-/

namespace AuthenticaHook

/-- Process-wide configuration, read once from the environment at startup
(`src/index.ts` lines 26-38).  `""` encodes an unset/empty variable. -/
structure Config where
  apiKey : String
  smsTemplateId : String
  whatsappTemplateId : String
  fallbackEmail : String
  hookSecret : String
  smsCountryCodes : String
deriving DecidableEq, Repr

/-- The character class of the JavaScript regular-expression escape `\s`
(whitespace), which is also the set trimmed by `String.prototype.trim`. -/
def jsWhitespace (c : Char) : Bool :=
  [' ', '\t', '\n', '\r', '\x0b', '\x0c', '\u00A0', '\u1680',
   '\u2000', '\u2001', '\u2002', '\u2003', '\u2004', '\u2005', '\u2006',
   '\u2007', '\u2008', '\u2009', '\u200A', '\u2028', '\u2029', '\u202F',
   '\u205F', '\u3000', '\uFEFF'].contains c

/-- JavaScript `s.startsWith(pre)`. -/
def strStartsWith (s pre : String) : Bool :=
  pre.data.isPrefixOf s.data

/-- JavaScript `s.trim()`: remove leading and trailing whitespace. -/
def jsTrim (s : String) : String :=
  String.mk (((s.data.dropWhile jsWhitespace).reverse.dropWhile jsWhitespace).reverse)

/-- First-occurrence replacement on character lists: the semantics of
JavaScript `s.replace(pat, repl)` when `pat` is a plain string (only the
first occurrence is replaced; the string is returned unchanged when the
pattern does not occur). -/
def listReplaceFirst (pat repl : List Char) : List Char → List Char
  | [] => if pat = [] then repl else []
  | c :: cs =>
    if pat.isPrefixOf (c :: cs) then repl ++ (c :: cs).drop pat.length
    else c :: listReplaceFirst pat repl cs

/-- JavaScript `s.replace(pat, repl)` for a plain-string pattern. -/
def jsReplaceFirst (s pat repl : String) : String :=
  String.mk (listReplaceFirst pat.data repl.data s.data)

/-- Whether `pat` occurs as a contiguous sublist of `l` (substring test). -/
def listHasSubstr (pat : List Char) : List Char → Bool
  | [] => decide (pat = [])
  | c :: cs => pat.isPrefixOf (c :: cs) || listHasSubstr pat cs

/-- Helper for `jsSplitComma`: accumulates the current field (reversed)
while scanning the character list. -/
def splitCommaAux : List Char → List Char → List String
  | [], acc => [String.mk acc.reverse]
  | c :: cs, acc =>
    if c = ',' then String.mk acc.reverse :: splitCommaAux cs []
    else splitCommaAux cs (c :: acc)

/-- JavaScript `s.split(",")`: split on every comma; the empty string
yields `[""]`. -/
def jsSplitComma (s : String) : List String :=
  splitCommaAux s.data []

/-- Embedding of `getSmsCountryCodes` (`src/index.ts` lines 46-52):
split the configured string on `","`, trim each entry, prepend `"+"`
when absent, and keep only entries of length `> 1`. -/
def getSmsCountryCodes (smsCountryCodes : String) : List String :=
  (((jsSplitComma smsCountryCodes).map jsTrim).map
      (fun code => if strStartsWith code "+" then code else "+" ++ code)).filter
    (fun code => code.data.length > 1)

/-- The phone normalization performed inside `shouldUseSMS`
(`src/index.ts` lines 77-80): `phone.replace(/[\s-]/g, "")` followed by
prepending `"+"` when absent. -/
def normalizePhone (phone : String) : String :=
  let normalized := String.mk (phone.data.filter (fun c => !(jsWhitespace c || c = '-')))
  if strStartsWith normalized "+" then normalized else "+" ++ normalized

/-- Embedding of `shouldUseSMS` (`src/index.ts` lines 63-84): `true`
means the SMS channel, `false` the WhatsApp channel. -/
def shouldUseSMS (cfg : Config) (phone : String) : Bool :=
  if cfg.whatsappTemplateId = "" then true
  else
    let smsCountryCodes := getSmsCountryCodes cfg.smsCountryCodes
    if smsCountryCodes.length = 0 then true
    else
      let normalized := normalizePhone phone
      smsCountryCodes.any (fun code => strStartsWith normalized code)

/-- Outcome of the outbound `fetch` to the provider, as observed by
`sendSMS`: either an HTTP response (status and body text) or a
transport-level exception carrying a message. -/
inductive FetchOutcome where
  | response (status : Nat) (bodyText : String)
  | exception (message : String)
deriving DecidableEq, Repr

/-- The JSON body of the outbound request to
`https://api.authentica.sa/api/v2/send-otp` (`src/index.ts` lines
121-127).  The template id is kept as the configured string; the
`parseInt` conversion is not observed by any property below. -/
structure OutboundRequest where
  method : String
  phone : String
  templateIdStr : String
  fallbackEmail : String
  otp : String
deriving DecidableEq, Repr

/-- Result of `sendSMS`.  `data` is the parsed provider body
(`Sum.inl`) or its raw text when JSON parsing fails (`Sum.inr`);
`request` records the outbound call performed on this path (`none` when
no network call is made). -/
structure SendResult (α : Type) where
  success : Bool
  error : Option String
  data : Option (α ⊕ String)
  request : Option OutboundRequest
deriving DecidableEq, Repr

/-- Embedding of `sendSMS` (`src/index.ts` lines 93-168).  `jsonParse`
models `JSON.parse` on the provider's response text (`none` = the text
is not valid JSON and parsing throws, caught by the inner `try`). -/
def sendSMS {α : Type} (jsonParse : String → Option α) (cfg : Config)
    (phone otp : String) (outcome : FetchOutcome) : SendResult α :=
  if cfg.apiKey = "" then
    ⟨false, some "SMS service not configured", none, none⟩
  else
    let useSMS := shouldUseSMS cfg phone
    let deliveryMethod := if useSMS then "sms" else "whatsapp"
    let templateId := if useSMS then cfg.smsTemplateId else cfg.whatsappTemplateId
    let req : OutboundRequest := ⟨deliveryMethod, phone, templateId, cfg.fallbackEmail, otp⟩
    match outcome with
    | .exception _ => ⟨false, some "Failed to send SMS", none, some req⟩
    | .response status text =>
      let data : α ⊕ String :=
        match jsonParse text with
        | some j => Sum.inl j
        | none => Sum.inr text
      if 200 ≤ status ∧ status < 300 then ⟨true, none, some data, some req⟩
      else ⟨false, some ("Authentica API error: " ++ toString status), some data, some req⟩

/-- The `user` object of the inbound webhook event. -/
structure UserFields where
  phone : Option String
  new_phone : Option String
deriving DecidableEq, Repr

/-- The `sms` object of the inbound webhook event. -/
structure SmsFields where
  otp : Option String
deriving DecidableEq, Repr

/-- The inbound webhook event as the handler reads it (optional chaining
`event?.user?.phone` etc. means every level may be absent). -/
structure InboundEvent where
  user : Option UserFields
  sms : Option SmsFields
deriving DecidableEq, Repr

/-- JavaScript `a || b` on possibly-undefined strings: `a` when `a` is
truthy (present and non-empty), otherwise `b`. -/
def jsOr (a b : Option String) : Option String :=
  match a with
  | some s => if s = "" then b else some s
  | none => b

/-- JavaScript falsiness of a possibly-undefined string: `undefined` or
`""`. -/
def strFalsy : Option String → Bool
  | none => true
  | some s => s = ""

/-- The secret the handler passes to the `Webhook` verifier constructor
(`src/index.ts` line 216): `HOOK_SECRET.replace("v1,whsec_", "")`. -/
def verifierSecret (cfg : Config) : String :=
  jsReplaceFirst cfg.hookSecret "v1,whsec_" ""

/-- One JSON response body of the handler: every body is either
`JSON.stringify({code, message})` or `JSON.stringify({success: true})`. -/
inductive RespBody where
  | errObj (code message : String)
  | okObj
deriving DecidableEq, Repr

/-- An HTTP response of the handler. -/
structure HttpResponse where
  status : Nat
  body : RespBody
  contentType : String
deriving DecidableEq, Repr

/-- Result of one handler invocation: the response, and the outbound
provider request performed during the invocation (`none` when the
provider is never called). -/
structure HandlerResult (α : Type) where
  response : HttpResponse
  providerRequest : Option OutboundRequest
deriving DecidableEq, Repr

/-- The event the handler processes (`src/index.ts` lines 206-233), as
an `Except` whose error is the message of the JavaScript exception that
escapes this block.  `parsedBody` models `JSON.parse(payload)` on the
raw body.  When a hook secret is configured and the signature check
succeeds, the `standardwebhooks` verifier returns the parsed body
(modelled from the spec, section 4.2: "On verification success: parse
the body as the `InboundEvent` and proceed" — the library itself is an
external dependency).  When the signature check fails, the inner
`catch` parses the body anyway; and when no secret is configured the
body is parsed directly. -/
def handlerEvent (cfg : Config) (parsedBody : Except String InboundEvent)
    (verifySigOk : Bool) : Except String InboundEvent :=
  if cfg.hookSecret ≠ "" then
    if verifySigOk then
      parsedBody
    else
      parsedBody
  else
    parsedBody

/-- The body of the handler's `try` block together with the outer
`catch` (`src/index.ts` lines 200-329): extract phone and OTP, validate
them, format the phone, call `sendSMS`, and map the outcome to an HTTP
response. -/
def postBody {α : Type} (jsonParse : String → Option α) (cfg : Config)
    (parsedBody : Except String InboundEvent) (verifySigOk : Bool)
    (outcome : FetchOutcome) : HandlerResult α :=
  match handlerEvent cfg parsedBody verifySigOk with
  | .error e =>
    ⟨⟨500, .errObj "unexpected_failure" (if e = "" then "Internal server error" else e),
      "application/json"⟩, none⟩
  | .ok event =>
    let phone := jsOr (event.user.bind UserFields.phone) (event.user.bind UserFields.new_phone)
    let otp := event.sms.bind SmsFields.otp
    if strFalsy phone then
      ⟨⟨400, .errObj "invalid_payload" "Missing phone number", "application/json"⟩, none⟩
    else if strFalsy otp then
      ⟨⟨400, .errObj "invalid_payload" "Missing OTP", "application/json"⟩, none⟩
    else
      let p := phone.getD ""
      let formattedPhone := if strStartsWith p "+" then p else "+" ++ p
      let result := sendSMS jsonParse cfg formattedPhone (otp.getD "") outcome
      if result.success then
        ⟨⟨200, .okObj, "application/json"⟩, result.request⟩
      else
        ⟨⟨500, .errObj "sms_send_failure"
            (match result.error with
             | some e => if e = "" then "Failed to send SMS" else e
             | none => "Failed to send SMS"), "application/json"⟩, result.request⟩

/-- The full handler (`src/index.ts` lines 181-330), including the
method gate. -/
def handler {α : Type} (jsonParse : String → Option α) (cfg : Config)
    (method : String) (parsedBody : Except String InboundEvent)
    (verifySigOk : Bool) (outcome : FetchOutcome) : HandlerResult α :=
  if method ≠ "POST" then
    ⟨⟨405, .errObj "method_not_allowed" "Only POST method is allowed", "application/json"⟩,
      none⟩
  else
    postBody jsonParse cfg parsedBody verifySigOk outcome

/-! Claim-side rendering of the routing algorithm, written to follow the
words of the specification sentence by sentence, to be compared with the
embedding of the source. -/

/-- The allow-list as the spec describes it: from the comma-separated
prefix string, trim each entry, prepend `'+'` when absent, and drop
entries of length `≤ 1`. -/
def claimAllowList (s : String) : List String :=
  ((jsSplitComma s).map (fun entry =>
      let t := jsTrim entry
      if strStartsWith t "+" then t else "+" ++ t)).filter
    (fun e => 1 < e.data.length)

/-- The phone normalization as the spec describes it: remove all
whitespace and hyphens and ensure a leading `'+'`. -/
def claimNormalizePhone (p : String) : String :=
  let stripped := String.mk (p.data.filter (fun c => !jsWhitespace c && c != '-'))
  if strStartsWith stripped "+" then stripped else "+" ++ stripped

/-- The routing algorithm as the spec describes it: SMS when the
alternate template is unconfigured or the allow-list is empty, otherwise
SMS exactly when the normalized phone starts with some listed prefix. -/
def claimRoute (cfg : Config) (p : String) : Bool :=
  if cfg.whatsappTemplateId = "" then true
  else
    let allow := claimAllowList cfg.smsCountryCodes
    if allow.isEmpty then true
    else decide (∃ c ∈ allow, strStartsWith (claimNormalizePhone p) c)

theorem claimAllowList_eq (s : String) :
    claimAllowList s = getSmsCountryCodes s := by
  unfold claimAllowList getSmsCountryCodes
  rw [List.map_map]
  rfl

theorem claimNormalizePhone_eq (p : String) :
    claimNormalizePhone p = normalizePhone p := by
  unfold claimNormalizePhone normalizePhone
  have h : (fun c => !jsWhitespace c && c != '-') =
      (fun c => !(jsWhitespace c || c = '-')) := by
    funext c
    by_cases hw : jsWhitespace c = true <;> by_cases hd : c = '-' <;> simp [hw, hd]
  rw [h]

/-- C1: the channel choice of `shouldUseSMS` follows the routing
algorithm of the specification: always SMS when the WhatsApp template id
is empty; otherwise, with the allow-list derived by trimming, prepending
`'+'` when absent, and dropping entries of length `≤ 1`, always SMS when
that list is empty, and otherwise SMS exactly when the normalized phone
(whitespace and hyphens removed, leading `'+'` ensured) starts with some
prefix of the list. -/
theorem shouldUseSMS_matches_claim_routing (cfg : Config) (phone : String) :
    shouldUseSMS cfg phone = claimRoute cfg phone := by
  unfold shouldUseSMS claimRoute
  rw [claimAllowList_eq, claimNormalizePhone_eq]
  by_cases h1 : cfg.whatsappTemplateId = ""
  · simp [h1]
  · simp only [h1, if_false]
    cases hl : getSmsCountryCodes cfg.smsCountryCodes with
    | nil => simp
    | cons c cs =>
      simp only [List.length_cons, List.isEmpty_cons]
      rw [if_neg (by simp), if_neg (by simp)]
      rw [Bool.eq_iff_iff]
      simp [List.any_eq_true]

theorem normalizePhone_idem (p : String) :
    normalizePhone (normalizePhone p) = normalizePhone p := by
  unfold normalizePhone
  by_cases h : strStartsWith (String.mk (p.data.filter (fun c => !(jsWhitespace c || c = '-')))) "+" = true
  · rw [if_pos h]
    have hf : (String.mk (p.data.filter fun c => !(jsWhitespace c || c = '-'))).data.filter
        (fun c => !(jsWhitespace c || c = '-')) =
        p.data.filter (fun c => !(jsWhitespace c || c = '-')) := by
      show (p.data.filter _).filter _ = _
      rw [List.filter_filter]
      simp
    rw [hf, if_pos h]
  · rw [if_neg h]
    have hd : ("+" ++ String.mk (p.data.filter fun c => !(jsWhitespace c || c = '-'))).data =
        '+' :: p.data.filter (fun c => !(jsWhitespace c || c = '-')) := rfl
    have hf : ("+" ++ String.mk (p.data.filter fun c => !(jsWhitespace c || c = '-'))).data.filter
        (fun c => !(jsWhitespace c || c = '-')) =
        '+' :: p.data.filter (fun c => !(jsWhitespace c || c = '-')) := by
      have hc : (!(jsWhitespace '+' || decide ('+' = '-'))) = true := by decide
      rw [hd, List.filter_cons, if_pos hc, List.filter_filter]
      simp
    rw [hf]
    have hp : strStartsWith (String.mk ('+' :: p.data.filter fun c => !(jsWhitespace c || c = '-'))) "+"
        = true := by
      simp [strStartsWith, List.isPrefixOf]
    rw [if_pos hp]
    rfl

theorem shouldUseSMS_norm_inv (cfg : Config) (p : String) :
    shouldUseSMS cfg p = shouldUseSMS cfg (normalizePhone p) := by
  unfold shouldUseSMS
  rw [normalizePhone_idem]

/-- C7: routing is invariant under phone normalization: for every
configuration, `shouldUseSMS p = shouldUseSMS (normalizePhone p)`, and
in particular the hyphenated phone `"966-512-345678"` without a leading
`'+'` is routed exactly like `"+966512345678"`. -/
theorem shouldUseSMS_normalization_invariant :
    (∀ cfg p, shouldUseSMS cfg p = shouldUseSMS cfg (normalizePhone p)) ∧
    (∀ cfg, shouldUseSMS cfg "966-512-345678" = shouldUseSMS cfg "+966512345678") := by
  refine ⟨shouldUseSMS_norm_inv, fun cfg => ?_⟩
  have h1 : normalizePhone "966-512-345678" = "+966512345678" := by decide
  have h2 : normalizePhone "+966512345678" = "+966512345678" := by decide
  rw [shouldUseSMS_norm_inv cfg "966-512-345678", h1, ← h2,
    ← shouldUseSMS_norm_inv cfg "+966512345678"]

/-- C8: the channel router is deterministic and side-effect-free: its
result depends only on the configuration values it reads (the WhatsApp
template id and the allow-list string) and the phone, so any two
invocations under equal read state return the same channel, and no
invocation mutates anything another invocation reads (the embedding is a
pure function of that state). -/
theorem shouldUseSMS_deterministic (cfg₁ cfg₂ : Config) (p : String)
    (h1 : cfg₁.whatsappTemplateId = cfg₂.whatsappTemplateId)
    (h2 : cfg₁.smsCountryCodes = cfg₂.smsCountryCodes) :
    shouldUseSMS cfg₁ p = shouldUseSMS cfg₂ p := by
  unfold shouldUseSMS
  rw [h1, h2]

/-- Witness for C8 at a concrete pair of configurations differing in
every unread field. -/
theorem shouldUseSMS_deterministic_witness :
    (⟨"k1", "31", "99", "a@b", "s1", "+966"⟩ : Config).whatsappTemplateId =
      (⟨"k2", "32", "99", "c@d", "s2", "+966"⟩ : Config).whatsappTemplateId ∧
    (⟨"k1", "31", "99", "a@b", "s1", "+966"⟩ : Config).smsCountryCodes =
      (⟨"k2", "32", "99", "c@d", "s2", "+966"⟩ : Config).smsCountryCodes ∧
    shouldUseSMS ⟨"k1", "31", "99", "a@b", "s1", "+966"⟩ "+966512345678" =
      shouldUseSMS ⟨"k2", "32", "99", "c@d", "s2", "+966"⟩ "+966512345678" :=
  ⟨rfl, rfl,
    shouldUseSMS_deterministic ⟨"k1", "31", "99", "a@b", "s1", "+966"⟩
      ⟨"k2", "32", "99", "c@d", "s2", "+966"⟩ "+966512345678" rfl rfl⟩

/-- C2: with the API key configured, `sendSMS` succeeds exactly on a 2xx
provider status; on a non-2xx status it reports
`"Authentica API error: <status>"` with the parsed-or-raw body as data;
on a transport exception it reports `"Failed to send SMS"` with no
provider data and a result independent of the exception detail; and when
the body is not valid JSON the raw text is kept as the data (the
embedding is a total function, so no path throws). -/
theorem sendSMS_status_and_error_contract {α : Type} (jsonParse : String → Option α)
    (cfg : Config) (phone otp : String) (hkey : cfg.apiKey ≠ "") :
    (∀ status text,
      ((sendSMS jsonParse cfg phone otp (.response status text)).success = true ↔
        200 ≤ status ∧ status < 300)) ∧
    (∀ status text, ¬(200 ≤ status ∧ status < 300) →
      sendSMS jsonParse cfg phone otp (.response status text) =
        ⟨false, some ("Authentica API error: " ++ toString status),
         some (match jsonParse text with
               | some j => Sum.inl j
               | none => Sum.inr text),
         some ⟨if shouldUseSMS cfg phone then "sms" else "whatsapp", phone,
               if shouldUseSMS cfg phone then cfg.smsTemplateId else cfg.whatsappTemplateId,
               cfg.fallbackEmail, otp⟩⟩) ∧
    (∀ msg, sendSMS jsonParse cfg phone otp (.exception msg) =
      ⟨false, some "Failed to send SMS", none,
       some ⟨if shouldUseSMS cfg phone then "sms" else "whatsapp", phone,
             if shouldUseSMS cfg phone then cfg.smsTemplateId else cfg.whatsappTemplateId,
             cfg.fallbackEmail, otp⟩⟩) ∧
    (∀ status text, jsonParse text = none →
      (sendSMS jsonParse cfg phone otp (.response status text)).data = some (Sum.inr text)) := by
  refine ⟨fun status text => ?_, fun status text h => ?_, fun msg => ?_, fun status text h => ?_⟩
  · unfold sendSMS
    rw [if_neg hkey]
    by_cases h2 : 200 ≤ status ∧ status < 300 <;> simp [h2]
  · unfold sendSMS
    rw [if_neg hkey]
    simp only [if_neg h]
  · unfold sendSMS
    rw [if_neg hkey]
  · unfold sendSMS
    rw [if_neg hkey]
    simp only [h]
    by_cases h2 : 200 ≤ status ∧ status < 300 <;> simp [h2]

/-- Witness for C2 at a concrete configuration, phone, OTP, a failing
status, an exception, and a non-JSON body. -/
theorem sendSMS_status_and_error_contract_witness :
    ((⟨"key", "31", "", "e@x", "", ""⟩ : Config).apiKey ≠ "") ∧
    ¬(200 ≤ 422 ∧ 422 < 300) ∧
    sendSMS (fun _ => (none : Option Nat)) ⟨"key", "31", "", "e@x", "", ""⟩
        "+966512345678" "1234" (.response 422 "oops") =
      ⟨false, some "Authentica API error: 422", some (Sum.inr "oops"),
       some ⟨"sms", "+966512345678", "31", "e@x", "1234"⟩⟩ ∧
    sendSMS (fun _ => (none : Option Nat)) ⟨"key", "31", "", "e@x", "", ""⟩
        "+966512345678" "1234" (.exception "ECONNRESET") =
      ⟨false, some "Failed to send SMS", none,
       some ⟨"sms", "+966512345678", "31", "e@x", "1234"⟩⟩ := by
  refine ⟨by decide, by decide, ?_, ?_⟩
  · exact ((sendSMS_status_and_error_contract (fun _ => (none : Option Nat))
      ⟨"key", "31", "", "e@x", "", ""⟩ "+966512345678" "1234"
      (by decide)).2.1 422 "oops" (by decide)).trans (by decide)
  · exact ((sendSMS_status_and_error_contract (fun _ => (none : Option Nat))
      ⟨"key", "31", "", "e@x", "", ""⟩ "+966512345678" "1234"
      (by decide)).2.2.1 "ECONNRESET").trans (by decide)

theorem handlerEvent_eq (cfg : Config) (pb : Except String InboundEvent) (v : Bool) :
    handlerEvent cfg pb v = pb := by
  unfold handlerEvent
  by_cases h : cfg.hookSecret = "" <;> simp [h]

theorem postBody_missing_phone {α : Type} (jsonParse : String → Option α) (cfg : Config)
    (event : InboundEvent) (v : Bool) (o : FetchOutcome)
    (h : strFalsy (jsOr (event.user.bind UserFields.phone)
      (event.user.bind UserFields.new_phone)) = true) :
    postBody jsonParse cfg (.ok event) v o =
      ⟨⟨400, .errObj "invalid_payload" "Missing phone number", "application/json"⟩, none⟩ := by
  unfold postBody
  rw [handlerEvent_eq]
  simp only [h, if_pos]

theorem postBody_missing_otp {α : Type} (jsonParse : String → Option α) (cfg : Config)
    (event : InboundEvent) (v : Bool) (o : FetchOutcome)
    (hp : strFalsy (jsOr (event.user.bind UserFields.phone)
      (event.user.bind UserFields.new_phone)) = false)
    (ho : strFalsy (event.sms.bind SmsFields.otp) = true) :
    postBody jsonParse cfg (.ok event) v o =
      ⟨⟨400, .errObj "invalid_payload" "Missing OTP", "application/json"⟩, none⟩ := by
  unfold postBody
  rw [handlerEvent_eq]
  simp only [hp, ho, Bool.false_eq_true, if_false, if_pos]

/-- C3: for a POST event whose phone (`user.phone` with fallback to
`user.new_phone`) is missing or empty, the handler returns 400 with
`{code: invalid_payload, message: "Missing phone number"}`; with a phone
present but `sms.otp` missing or empty it returns 400 with
`{code: invalid_payload, message: "Missing OTP"}`; in both cases no
provider request is made. -/
theorem handler_missing_phone_or_otp_400 {α : Type} (jsonParse : String → Option α)
    (cfg : Config) (event : InboundEvent) (v : Bool) (o : FetchOutcome) :
    (strFalsy (jsOr (event.user.bind UserFields.phone)
        (event.user.bind UserFields.new_phone)) = true →
      handler jsonParse cfg "POST" (.ok event) v o =
        ⟨⟨400, .errObj "invalid_payload" "Missing phone number", "application/json"⟩, none⟩) ∧
    (strFalsy (jsOr (event.user.bind UserFields.phone)
        (event.user.bind UserFields.new_phone)) = false →
      strFalsy (event.sms.bind SmsFields.otp) = true →
      handler jsonParse cfg "POST" (.ok event) v o =
        ⟨⟨400, .errObj "invalid_payload" "Missing OTP", "application/json"⟩, none⟩) := by
  constructor
  · intro h
    unfold handler
    rw [if_neg (by simp)]
    exact postBody_missing_phone jsonParse cfg event v o h
  · intro hp ho
    unfold handler
    rw [if_neg (by simp)]
    exact postBody_missing_otp jsonParse cfg event v o hp ho

/-- Witness for C3: an event with empty `phone`, absent `new_phone` and
present OTP yields the missing-phone response; an event with a phone but
absent OTP yields the missing-OTP response. -/
theorem handler_missing_phone_or_otp_400_witness :
    (strFalsy (jsOr ((some ⟨some "", none⟩ : Option UserFields).bind UserFields.phone)
        ((some ⟨some "", none⟩ : Option UserFields).bind UserFields.new_phone)) = true ∧
      handler (fun _ => (none : Option Nat)) ⟨"key", "31", "", "e@x", "", ""⟩ "POST"
          (.ok ⟨some ⟨some "", none⟩, some ⟨some "1234"⟩⟩) true (.response 200 "{}") =
        ⟨⟨400, .errObj "invalid_payload" "Missing phone number", "application/json"⟩, none⟩) ∧
    (handler (fun _ => (none : Option Nat)) ⟨"key", "31", "", "e@x", "", ""⟩ "POST"
        (.ok ⟨some ⟨some "+966512345678", none⟩, none⟩) true (.response 200 "{}") =
      ⟨⟨400, .errObj "invalid_payload" "Missing OTP", "application/json"⟩, none⟩) := by
  refine ⟨⟨by decide, ?_⟩, ?_⟩
  · exact (handler_missing_phone_or_otp_400 (fun _ => (none : Option Nat))
      ⟨"key", "31", "", "e@x", "", ""⟩ ⟨some ⟨some "", none⟩, some ⟨some "1234"⟩⟩
      true (.response 200 "{}")).1 (by decide)
  · exact (handler_missing_phone_or_otp_400 (fun _ => (none : Option Nat))
      ⟨"key", "31", "", "e@x", "", ""⟩ ⟨some ⟨some "+966512345678", none⟩, none⟩
      true (.response 200 "{}")).2 (by decide) (by decide)

theorem strFalsy_jsOr {a b : Option String} (ha : strFalsy a = true) :
    jsOr a b = b := by
  cases a with
  | none => rfl
  | some s =>
    simp only [strFalsy, decide_eq_true_eq] at ha
    simp [jsOr, ha]

/-- C10: phone validation precedes OTP validation: when `user.phone`,
`user.new_phone` and `sms.otp` are all missing or empty, the handler
returns the missing-phone response, never the missing-OTP one. -/
theorem handler_phone_validation_precedes_otp {α : Type} (jsonParse : String → Option α)
    (cfg : Config) (event : InboundEvent) (v : Bool) (o : FetchOutcome)
    (hp : strFalsy (event.user.bind UserFields.phone) = true)
    (hnp : strFalsy (event.user.bind UserFields.new_phone) = true)
    (ho : strFalsy (event.sms.bind SmsFields.otp) = true) :
    handler jsonParse cfg "POST" (.ok event) v o =
      ⟨⟨400, .errObj "invalid_payload" "Missing phone number", "application/json"⟩, none⟩ := by
  unfold handler
  rw [if_neg (by simp)]
  exact postBody_missing_phone jsonParse cfg event v o (by rw [strFalsy_jsOr hp]; exact hnp)

/-- Witness for C10 at an event whose three fields are empty, absent and
absent respectively. -/
theorem handler_phone_validation_precedes_otp_witness :
    (strFalsy ((some (⟨some "", none⟩ : UserFields)).bind UserFields.phone) = true ∧
     strFalsy ((some (⟨some "", none⟩ : UserFields)).bind UserFields.new_phone) = true ∧
     strFalsy ((none : Option SmsFields).bind SmsFields.otp) = true) ∧
    handler (fun _ => (none : Option Nat)) ⟨"key", "31", "", "e@x", "", ""⟩ "POST"
        (.ok ⟨some ⟨some "", none⟩, none⟩) false (.response 200 "{}") =
      ⟨⟨400, .errObj "invalid_payload" "Missing phone number", "application/json"⟩, none⟩ :=
  ⟨⟨by decide, by decide, by decide⟩,
    handler_phone_validation_precedes_otp (fun _ => (none : Option Nat))
      ⟨"key", "31", "", "e@x", "", ""⟩ ⟨some ⟨some "", none⟩, none⟩ false
      (.response 200 "{}") (by decide) (by decide) (by decide)⟩

/-- C4: with a webhook secret configured, signature verification never
terminates the request: for a valid-JSON body the whole downstream
handling (extraction, routing, delivery, response) is the same whether
verification succeeds or fails. -/
theorem handler_verification_failure_same_handling {α : Type} (jsonParse : String → Option α)
    (cfg : Config) (event : InboundEvent) (v₁ v₂ : Bool) (o : FetchOutcome)
    (hsecret : cfg.hookSecret ≠ "") :
    handler jsonParse cfg "POST" (.ok event) v₁ o =
      handler jsonParse cfg "POST" (.ok event) v₂ o := by
  unfold handler postBody
  rw [handlerEvent_eq, handlerEvent_eq]

/-- Witness for C4 at a concrete configured secret, comparing the
verified and the unverified run on the same event. -/
theorem handler_verification_failure_same_handling_witness :
    ((⟨"key", "31", "", "e@x", "v1,whsec_s3cr3t", ""⟩ : Config).hookSecret ≠ "") ∧
    handler (fun _ => (none : Option Nat)) ⟨"key", "31", "", "e@x", "v1,whsec_s3cr3t", ""⟩
        "POST" (.ok ⟨some ⟨some "+966512345678", none⟩, some ⟨some "1234"⟩⟩) true
        (.response 200 "{}") =
      handler (fun _ => (none : Option Nat)) ⟨"key", "31", "", "e@x", "v1,whsec_s3cr3t", ""⟩
        "POST" (.ok ⟨some ⟨some "+966512345678", none⟩, some ⟨some "1234"⟩⟩) false
        (.response 200 "{}") :=
  ⟨by decide,
    handler_verification_failure_same_handling (fun _ => (none : Option Nat))
      ⟨"key", "31", "", "e@x", "v1,whsec_s3cr3t", ""⟩
      ⟨some ⟨some "+966512345678", none⟩, some ⟨some "1234"⟩⟩ true false
      (.response 200 "{}") (by decide)⟩

/-- C9: a POST request whose body is not valid JSON — reached with no
secret configured, or after signature verification fails — yields 500
with code `unexpected_failure` carrying the parse error's message (not a
400 `invalid_payload`), still as a JSON body with `Content-Type:
application/json`, and no provider request. -/
theorem handler_invalid_json_unexpected_failure {α : Type} (jsonParse : String → Option α)
    (cfg : Config) (msg : String) (v : Bool) (o : FetchOutcome)
    (hreach : cfg.hookSecret = "" ∨ v = false) (hmsg : msg ≠ "") :
    handler jsonParse cfg "POST" (.error msg) v o =
      ⟨⟨500, .errObj "unexpected_failure" msg, "application/json"⟩, none⟩ := by
  unfold handler postBody
  rw [handlerEvent_eq]
  simp only [if_neg hmsg]
  rw [if_neg (by simp)]

/-- Witness for C9 at a concrete JSON parse error with no secret
configured. -/
theorem handler_invalid_json_unexpected_failure_witness :
    ((⟨"key", "31", "", "e@x", "", ""⟩ : Config).hookSecret = "" ∨ (true : Bool) = false) ∧
    ("Unexpected token o in JSON" ≠ "") ∧
    handler (fun _ => (none : Option Nat)) ⟨"key", "31", "", "e@x", "", ""⟩ "POST"
        (.error "Unexpected token o in JSON") true (.response 200 "{}") =
      ⟨⟨500, .errObj "unexpected_failure" "Unexpected token o in JSON",
        "application/json"⟩, none⟩ :=
  ⟨Or.inl rfl, by decide,
    handler_invalid_json_unexpected_failure (fun _ => (none : Option Nat))
      ⟨"key", "31", "", "e@x", "", ""⟩ "Unexpected token o in JSON" true
      (.response 200 "{}") (Or.inl rfl) (by decide)⟩

/-- C5: with the API key unconfigured, `sendSMS` immediately returns
`{success: false, error: "SMS service not configured"}` with no
outbound request regardless of the fetch outcome, and on a validated
event the handler then responds 500 with code `sms_send_failure` and
that error message. -/
theorem sendSMS_unconfigured_and_handler_500 {α : Type} (jsonParse : String → Option α)
    (cfg : Config) (hkey : cfg.apiKey = "") :
    (∀ phone otp outcome, sendSMS jsonParse cfg phone otp outcome =
      ⟨false, some "SMS service not configured", none, none⟩) ∧
    (∀ event (v : Bool) (o : FetchOutcome),
      strFalsy (jsOr (event.user.bind UserFields.phone)
        (event.user.bind UserFields.new_phone)) = false →
      strFalsy (event.sms.bind SmsFields.otp) = false →
      handler jsonParse cfg "POST" (.ok event) v o =
        ⟨⟨500, .errObj "sms_send_failure" "SMS service not configured",
          "application/json"⟩, none⟩) := by
  have hsend : ∀ phone otp outcome, sendSMS jsonParse cfg phone otp outcome =
      ⟨false, some "SMS service not configured", none, none⟩ := by
    intro phone otp outcome
    unfold sendSMS
    rw [if_pos hkey]
  refine ⟨hsend, fun event v o hp ho => ?_⟩
  unfold handler postBody
  rw [handlerEvent_eq]
  rw [if_neg (by simp)]
  simp only [hp, ho, Bool.false_eq_true, if_false, hsend]
  rfl

/-- Witness for C5 at a concrete unconfigured key and validated event. -/
theorem sendSMS_unconfigured_and_handler_500_witness :
    ((⟨"", "31", "", "e@x", "", ""⟩ : Config).apiKey = "") ∧
    sendSMS (fun _ => (none : Option Nat)) ⟨"", "31", "", "e@x", "", ""⟩ "+966512345678"
        "1234" (.response 200 "{}") =
      ⟨false, some "SMS service not configured", none, none⟩ ∧
    handler (fun _ => (none : Option Nat)) ⟨"", "31", "", "e@x", "", ""⟩ "POST"
        (.ok ⟨some ⟨some "+966512345678", none⟩, some ⟨some "1234"⟩⟩) true
        (.response 200 "{}") =
      ⟨⟨500, .errObj "sms_send_failure" "SMS service not configured",
        "application/json"⟩, none⟩ :=
  ⟨rfl,
    (sendSMS_unconfigured_and_handler_500 (fun _ => (none : Option Nat))
      ⟨"", "31", "", "e@x", "", ""⟩ rfl).1 "+966512345678" "1234" (.response 200 "{}"),
    (sendSMS_unconfigured_and_handler_500 (fun _ => (none : Option Nat))
      ⟨"", "31", "", "e@x", "", ""⟩ rfl).2
      ⟨some ⟨some "+966512345678", none⟩, some ⟨some "1234"⟩⟩ true
      (.response 200 "{}") (by decide) (by decide)⟩

/-- The secret stripping as claim C6 words it: remove `"v1,whsec_"` only
when it is present at the start, otherwise leave the secret unchanged. -/
def claimStripSecret (s : String) : String :=
  if strStartsWith s "v1,whsec_" then String.mk (s.data.drop 9) else s

/-- Counterexample for C6: for the secret `"abcv1,whsec_def"` the code's
`replace` removes the first occurrence of `"v1,whsec_"` in the middle of
the string, yielding `"abcdef"`, while the claim demands the value stay
unchanged because the prefix is not at the start. -/
theorem verifierSecret_claim_counterexample :
    verifierSecret ⟨"key", "31", "", "e@x", "abcv1,whsec_def", ""⟩ ≠
      claimStripSecret "abcv1,whsec_def" := by decide

theorem isPrefixOf_append_self (l₁ l₂ : List Char) : l₁.isPrefixOf (l₁ ++ l₂) = true := by
  induction l₁ with
  | nil => cases l₂ <;> rfl
  | cons c cs ih => simp [List.isPrefixOf, ih]

theorem listReplaceFirst_at_start {pat repl l : List Char}
    (h : pat.isPrefixOf l = true) :
    listReplaceFirst pat repl l = repl ++ l.drop pat.length := by
  cases l with
  | nil =>
    cases pat with
    | nil => simp [listReplaceFirst]
    | cons p ps => simp [List.isPrefixOf] at h
  | cons c cs =>
    unfold listReplaceFirst
    rw [if_pos h]

theorem listReplaceFirst_of_no_substr {pat repl : List Char} {l : List Char}
    (h : listHasSubstr pat l = false) :
    listReplaceFirst pat repl l = l := by
  induction l with
  | nil =>
    unfold listHasSubstr at h
    unfold listReplaceFirst
    simp only [decide_eq_false_iff_not] at h
    rw [if_neg h]
  | cons c cs ih =>
    unfold listHasSubstr at h
    rw [Bool.or_eq_false_iff] at h
    unfold listReplaceFirst
    rw [if_neg (by simp [h.1]), ih h.2]

theorem listHasSubstr_nil (l : List Char) : listHasSubstr [] l = true := by
  cases l <;> simp [listHasSubstr, List.isPrefixOf]

theorem isPrefixOf_iff_take (pat l : List Char) :
    pat.isPrefixOf l = true ↔ l.take pat.length = pat := by
  rw [ List.isPrefixOf_iff_prefix, List.prefix_iff_eq_take]
  exact eq_comm

theorem isPrefixOf_extend (pat l b : List Char) (hl : l ≠ []) (hpat : pat ≠ []) :
    pat.isPrefixOf (l ++ pat.dropLast) = pat.isPrefixOf (l ++ pat ++ b) := by
  have hpatd : pat.dropLast ++ [pat.getLast hpat] = pat := List.dropLast_append_getLast hpat
  have hdec : (l ++ pat) ++ b = (l ++ pat.dropLast) ++ ([pat.getLast hpat] ++ b) := by
    rw [List.append_assoc, List.append_assoc, ← List.append_assoc pat.dropLast, hpatd]
  have hlen : pat.length ≤ (l ++ pat.dropLast).length := by
    have h1 : 0 < l.length := List.length_pos.mpr hl
    have h2 : 0 < pat.length := List.length_pos.mpr hpat
    simp only [List.length_append, List.length_dropLast]
    omega
  rw [Bool.eq_iff_iff, isPrefixOf_iff_take, isPrefixOf_iff_take, hdec,
    List.take_append_of_le_length hlen]

/-- When `pat` starts no earlier occurrence inside `a ++ pat.dropLast`
(the region where an occurrence beginning strictly before `a.length`
would have to lie), the first occurrence of `pat` in `a ++ pat ++ b` is
the displayed one, and `listReplaceFirst` replaces exactly it. -/
theorem listReplaceFirst_mid (pat repl a b : List Char)
    (h : listHasSubstr pat (a ++ pat.dropLast) = false) :
    listReplaceFirst pat repl (a ++ pat ++ b) = a ++ repl ++ b := by
  induction a with
  | nil =>
    simp only [List.nil_append]
    rw [listReplaceFirst_at_start (isPrefixOf_append_self _ _), List.drop_left]
  | cons c a₁ ih =>
    by_cases hpat : pat = []
    · rw [hpat, listHasSubstr_nil] at h
      exact absurd h (by simp)
    · simp only [List.cons_append] at h
      unfold listHasSubstr at h
      rw [Bool.or_eq_false_iff] at h
      have hnp : pat.isPrefixOf (c :: (a₁ ++ (pat ++ b))) = false := by
        have hext := isPrefixOf_extend pat (c :: a₁) b (List.cons_ne_nil c a₁) hpat
        simp only [List.cons_append, List.append_assoc] at hext
        rw [← hext]
        exact h.1
      have hL : (c :: a₁) ++ pat ++ b = c :: (a₁ ++ (pat ++ b)) := by
        simp [List.append_assoc]
      rw [hL]
      unfold listReplaceFirst
      rw [if_neg (by simp [hnp])]
      rw [← List.append_assoc, ih h.2]
      simp [List.append_assoc]

/-- C6 (amended): the string passed to the verifier is the configured
secret with the first occurrence of the substring `"v1,whsec_"` removed,
wherever that occurrence lies: in general, for every decomposition of
the secret around an occurrence that no earlier occurrence precedes,
exactly that occurrence is removed (so a non-leading first occurrence is
removed too); in particular, when the secret starts with the prefix
exactly the leading prefix is removed, and when the substring does not
occur at all the secret is unchanged. -/
theorem verifierSecret_removes_first_occurrence :
    (∀ (cfg : Config) (a b : List Char),
      cfg.hookSecret.data = a ++ "v1,whsec_".data ++ b →
      listHasSubstr "v1,whsec_".data (a ++ "v1,whsec_".data.dropLast) = false →
      (verifierSecret cfg).data = a ++ b) ∧
    (∀ cfg : Config, ∀ rest : String, cfg.hookSecret = "v1,whsec_" ++ rest →
      verifierSecret cfg = rest) ∧
    (∀ cfg : Config, listHasSubstr "v1,whsec_".data cfg.hookSecret.data = false →
      verifierSecret cfg = cfg.hookSecret) := by
  refine ⟨fun cfg a b hsec hfirst => ?_, fun cfg rest hsec => ?_, fun cfg h => ?_⟩
  · unfold verifierSecret jsReplaceFirst
    rw [hsec, listReplaceFirst_mid _ _ _ _ hfirst]
    show a ++ "".data ++ b = a ++ b
    simp
  · unfold verifierSecret jsReplaceFirst
    rw [hsec, String.data_append]
    rw [listReplaceFirst_at_start (isPrefixOf_append_self _ _)]
    rw [List.drop_left]
    rfl
  · unfold verifierSecret jsReplaceFirst
    rw [listReplaceFirst_of_no_substr h]

/-- Witness for the amended C6 at the counterexample's own secret
`"abcv1,whsec_def"` (a non-leading first occurrence, removed to give
`"abcdef"`), at a secret carrying the leading prefix, and at a secret
not containing the substring at all. -/
theorem verifierSecret_removes_first_occurrence_witness :
    (("abcv1,whsec_def" : String).data = "abc".data ++ "v1,whsec_".data ++ "def".data ∧
     listHasSubstr "v1,whsec_".data ("abc".data ++ "v1,whsec_".data.dropLast) = false ∧
     (verifierSecret ⟨"key", "31", "", "e@x", "abcv1,whsec_def", ""⟩).data =
       "abc".data ++ "def".data) ∧
    (("v1,whsec_s3cr3t" : String) = "v1,whsec_" ++ "s3cr3t" ∧
      verifierSecret ⟨"key", "31", "", "e@x", "v1,whsec_s3cr3t", ""⟩ = "s3cr3t") ∧
    (listHasSubstr "v1,whsec_".data ("plainsecret" : String).data = false ∧
      verifierSecret ⟨"key", "31", "", "e@x", "plainsecret", ""⟩ = "plainsecret") :=
  ⟨⟨by decide, by decide,
     verifierSecret_removes_first_occurrence.1
       ⟨"key", "31", "", "e@x", "abcv1,whsec_def", ""⟩ "abc".data "def".data
       (by decide) (by decide)⟩,
   ⟨by decide,
     verifierSecret_removes_first_occurrence.2.1
       ⟨"key", "31", "", "e@x", "v1,whsec_s3cr3t", ""⟩ "s3cr3t" (by decide)⟩,
   ⟨by decide,
     verifierSecret_removes_first_occurrence.2.2
       ⟨"key", "31", "", "e@x", "plainsecret", ""⟩ (by decide)⟩⟩

end AuthenticaHook
